import Mathlib

/-!
Shallow embedding of the sales/debt/inventory consistency workflow of the
ISTECH Sales Management Dashboard (Supabase-backed React app).

The store is modelled as in-memory tables; every Supabase call of the
mutations under verification (`markAsPaidMutation`, `createSaleMutation`,
`deleteSaleMutation`, `handleSubmit`, `fetchDebtorStats`, the Analysis /
Dashboard window totals, `getStatusColor`) becomes an explicit state-passing
step.  A fault oracle (`CallSite → Option String`) injects store errors at
individual call sites, mirroring which results the source checks for an
`error` field and which it silently discards.  Money and timestamps are
exact integers (RWF amounts, epoch milliseconds).
-/

/-- Payment status of a sale: the `payment_status` column. -/
inductive PayStatus where
  | paid
  | pending
  | overdue
deriving DecidableEq, Repr

/-- A row of the `products` table (semantic fields used by the workflow). -/
structure Product where
  id : Nat
  name : String
  category : String
  cost : Int
  stock_quantity : Int
  is_active : Bool
  updated_at : Int
deriving DecidableEq, Repr

/-- A row of the `customers` table. -/
structure Customer where
  id : Nat
  name : String
  email : Option String
  phone : Option String
deriving DecidableEq, Repr

/-- A row of the `sales` table. -/
structure Sale where
  id : Nat
  customer_id : Nat
  user_id : Nat
  total_amount : Int
  total_cost : Int
  payment_status : PayStatus
  due_date : Option Int
  sale_date : Int
deriving DecidableEq, Repr

/-- A row of the `sale_items` table. -/
structure SaleItem where
  sale_id : Nat
  product_id : Nat
  quantity : Int
  unit_price : Int
  unit_cost : Int
deriving DecidableEq, Repr

/-- A row of the `debtors` table. -/
structure Debtor where
  id : Nat
  sale_id : Nat
  customer_id : Nat
  amount_owed : Int
  due_date : Int
  is_resolved : Bool
  updated_at : Int
deriving DecidableEq, Repr

/-- A row of the `notes` table (kept only so frame properties can state that
the sales workflow never touches it). -/
structure NoteRow where
  id : Nat
  title : String
  content : String
  is_pinned : Bool
deriving DecidableEq, Repr

/-- The whole data store: one list per table. -/
structure Store where
  products : List Product
  customers : List Customer
  sales : List Sale
  sale_items : List SaleItem
  debtors : List Debtor
  notes : List NoteRow
deriving DecidableEq, Repr

/-- Errors surfaced by the workflow operations. -/
inductive SaleError where
  | validation
  | insufficientStock (names : List String)
  | notAuthenticated
  | store (msg : String)
deriving DecidableEq, Repr

/-- One Supabase call site inside the three mutations; the fault oracle is
indexed by these, so a failure can be injected at any single call. -/
inductive CallSite where
  | custSel
  | custIns
  | saleIns
  | itemsIns
  | stockUpd (pid : Nat)
  | debtorUpd
  | debtorSel
  | saleUpd
  | itemsSel
  | prodSel (pid : Nat)
  | restoreUpd (pid : Nat)
  | saleDel
deriving DecidableEq, Repr

/-- Fault oracle: which call sites fail, and with what message. -/
def FailOracle : Type := CallSite → Option String

/-- The failure-free execution. -/
def noFail : FailOracle := fun _ => none

/-- Inject a failure with message `e` at exactly the call site `c`. -/
def failAt (c : CallSite) (e : String) : FailOracle :=
  fun c' => if c' = c then some e else none

/-- Supabase `.single()`: yields the row only when the filtered result has
exactly one row, otherwise the call errors (and callers that ignore the
error see `null`). -/
def singleRow {α : Type} : List α → Option α
  | [a] => some a
  | _ => none

/-- The row patch of `update debtors set is_resolved = true, updated_at = now
where id = debtorId`. -/
def resolveUpd (now : Int) (debtorId : Nat) (d : Debtor) : Debtor :=
  if d.id = debtorId then { d with is_resolved := true, updated_at := now } else d

/-- The row patch of `update sales set payment_status = "paid" where id = sid`. -/
def payUpd (sid : Nat) (sa : Sale) : Sale :=
  if sa.id = sid then { sa with payment_status := .paid } else sa

/-- Embedding of `markAsPaidMutation` (Debtors page): update the debtor row
to resolved, re-read its `sale_id` (the error of this read is not checked in
the source), and if a row came back, set the referenced sale to `paid`. -/
def markAsPaid (fail : FailOracle) (now : Int) (debtorId : Nat)
    (s : Store) : Store × Except SaleError Unit :=
  match fail .debtorUpd with
  | some e => (s, .error (.store e))
  | none =>
    let s1 : Store := { s with debtors := s.debtors.map (resolveUpd now debtorId) }
    let debtorRow : Option Debtor :=
      match fail .debtorSel with
      | some _ => none
      | none => singleRow (s1.debtors.filter fun d => d.id = debtorId)
    match debtorRow with
    | none => (s1, .ok ())
    | some d =>
      match fail .saleUpd with
      | some e => (s1, .error (.store e))
      | none =>
        ({ s1 with sales := s1.sales.map (payUpd d.sale_id) }, .ok ())

/-- One line of the Sale Recorder cart: a copy of the product row (as
`addProductToSale` spreads it) plus the chosen quantity and selling price.
`stock_quantity` is the stock cached at add-time. -/
structure CartLine where
  id : Nat
  name : String
  cost : Int
  sellingPrice : Int
  quantity : Int
  stock_quantity : Int
deriving DecidableEq, Repr

/-- `selectedProducts.reduce((sum, item) => sum + item.sellingPrice * item.quantity, 0)`. -/
def cartTotalAmount (cart : List CartLine) : Int :=
  cart.foldl (fun sum l => sum + l.sellingPrice * l.quantity) 0

/-- `selectedProducts.reduce((sum, item) => sum + item.cost * item.quantity, 0)`. -/
def cartTotalCost (cart : List CartLine) : Int :=
  cart.foldl (fun sum l => sum + l.cost * l.quantity) 0

/-- The sale-items rows built from the cart (one insert per cart line). -/
def cartItems (saleId : Nat) (cart : List CartLine) : List SaleItem :=
  cart.map fun l =>
    { sale_id := saleId, product_id := l.id, quantity := l.quantity,
      unit_price := l.sellingPrice, unit_cost := l.cost }

/-- The row patch of `update products set stock_quantity = cached - quantity
where id = line.id` (the cached stock comes from the cart line). -/
def stockWrite (now : Int) (l : CartLine) (p : Product) : Product :=
  if p.id = l.id then
    { p with stock_quantity := l.stock_quantity - l.quantity, updated_at := now }
  else p

/-- The stock-update loop at the end of `createSaleMutation`: for each cart
line, set the product's stock to the cart-cached stock minus the quantity;
each update's error is checked, so a failure aborts the remaining updates. -/
def stockUpdateLoop (fail : FailOracle) (now : Int) (cart : List CartLine)
    (s : Store) : Store × Except SaleError Unit :=
  match cart with
  | [] => (s, .ok ())
  | l :: rest =>
    match fail (.stockUpd l.id) with
    | some e => (s, .error (.store e))
    | none =>
      stockUpdateLoop fail now rest
        { s with products := s.products.map (stockWrite now l) }

/-- Steps 3-5 of `createSaleMutation`, run once the customer id is known:
insert the sale header (error checked), insert the sale items (error
checked), then run the stock-update loop. -/
def createSaleRest (fail : FailOracle) (uid : Nat) (now : Int)
    (cart : List CartLine) (paymentStatus : PayStatus) (dueDate : Option Int)
    (newSaleId customerId : Nat) (s1 : Store) :
    Store × Except SaleError Sale :=
  match fail .saleIns with
  | some e => (s1, .error (.store e))
  | none =>
    let sale : Sale :=
      { id := newSaleId, customer_id := customerId, user_id := uid,
        total_amount := cartTotalAmount cart, total_cost := cartTotalCost cart,
        payment_status := paymentStatus, due_date := dueDate, sale_date := now }
    let s2 := { s1 with sales := s1.sales ++ [sale] }
    match fail .itemsIns with
    | some e => (s2, .error (.store e))
    | none =>
      let s3 := { s2 with sale_items := s2.sale_items ++ cartItems newSaleId cart }
      match stockUpdateLoop fail now cart s3 with
      | (s4, .error e) => (s4, .error e)
      | (s4, .ok _) => (s4, .ok sale)

/-- Embedding of `createSaleMutation` (Sales page): resolve or lazily insert
the customer (the lookup's error is not checked; the insert's is), then run
the remaining steps.  `newCustomerId` and `newSaleId` stand for the
identifiers the store assigns on insert, `now` for the creation timestamp
(`sale_date` defaults to it). -/
def createSale (fail : FailOracle) (user : Option Nat) (now : Int)
    (customerName : String) (customerEmail customerPhone : Option String)
    (cart : List CartLine) (paymentStatus : PayStatus) (dueDate : Option Int)
    (newCustomerId newSaleId : Nat) (s : Store) :
    Store × Except SaleError Sale :=
  match user with
  | none => (s, .error .notAuthenticated)
  | some uid =>
    let existing : Option Customer :=
      match fail .custSel with
      | some _ => none
      | none => singleRow (s.customers.filter fun c => c.name = customerName)
    match existing with
    | some c => createSaleRest fail uid now cart paymentStatus dueDate newSaleId c.id s
    | none =>
      match fail .custIns with
      | some e => (s, .error (.store e))
      | none =>
        createSaleRest fail uid now cart paymentStatus dueDate newSaleId newCustomerId
          { s with customers := s.customers ++
              [{ id := newCustomerId, name := customerName,
                 email := customerEmail, phone := customerPhone }] }

/-- Embedding of the Sales page `handleSubmit`: client-side validation and
stock check, then the create-sale mutation. -/
def handleSubmit (fail : FailOracle) (user : Option Nat) (now : Int)
    (customerName : String) (customerEmail customerPhone : Option String)
    (cart : List CartLine) (paymentStatus : PayStatus) (dueDate : Option Int)
    (newCustomerId newSaleId : Nat) (s : Store) :
    Store × Except SaleError Sale :=
  if customerName = "" ∨ cart = [] then
    (s, .error .validation)
  else
    let stockIssues := cart.filter fun p => p.stock_quantity < p.quantity
    if stockIssues.isEmpty then
      createSale fail user now customerName customerEmail customerPhone cart
        paymentStatus dueDate newCustomerId newSaleId s
    else
      (s, .error (.insufficientStock (stockIssues.map fun p => p.name)))

/-- The row patch of `update products set stock_quantity = p.stock_quantity
+ item.quantity where id = item.product_id` (`p` is the freshly read row). -/
def restoreWrite (now : Int) (item : SaleItem) (p : Product) (q : Product) : Product :=
  if q.id = item.product_id then
    { q with stock_quantity := p.stock_quantity + item.quantity, updated_at := now }
  else q

/-- One iteration of the stock-restore loop in `deleteSaleMutation`: the
product read uses `.single()` with its error unchecked, and the stock update
result is discarded entirely, so neither failure aborts anything. -/
def restoreStep (fail : FailOracle) (now : Int) (s : Store) (item : SaleItem) :
    Store :=
  let product : Option Product :=
    match fail (.prodSel item.product_id) with
    | some _ => none
    | none => singleRow (s.products.filter fun p => p.id = item.product_id)
  match product with
  | none => s
  | some p =>
    match fail (.restoreUpd item.product_id) with
    | some _ => s
    | none =>
      { s with products := s.products.map (restoreWrite now item p) }

/-- Embedding of `deleteSaleMutation` (Sales page): read the sale's items
(error unchecked — a failure yields `null` and skips the whole restore),
restore stock line by line, then delete the sale row (error checked). -/
def deleteSale (fail : FailOracle) (now : Int) (saleId : Nat) (s : Store) :
    Store × Except SaleError Unit :=
  let saleItems : Option (List SaleItem) :=
    match fail .itemsSel with
    | some _ => none
    | none => some (s.sale_items.filter fun it => it.sale_id = saleId)
  let s1 :=
    match saleItems with
    | none => s
    | some items => items.foldl (restoreStep fail now) s
  match fail .saleDel with
  | some e => (s1, .error (.store e))
  | none => ({ s1 with sales := s1.sales.filter fun sa => sa.id ≠ saleId }, .ok ())

/-- The stock of the product with id `pid`, read the way the mutations do
(`.single()` on an id filter): defined exactly when the table has one such
row. -/
def getStock (s : Store) (pid : Nat) : Option Int :=
  (singleRow (s.products.filter fun p => p.id = pid)).map fun p => p.stock_quantity

/-- Milliseconds in a day: `1000 * 3600 * 24`. -/
def msPerDay : Int := 1000 * 3600 * 24

/-- `Math.ceil((due.getTime() - now.getTime()) / (1000 * 3600 * 24))`:
the exact ceiling of the millisecond difference divided by a day. -/
def daysUntilDue (due now : Int) : Int :=
  -(Int.fdiv (-(due - now)) msPerDay)

/-- Display classification of a due date (red / yellow / green in
`getStatusColor` and `getStatusIcon` on the Debtors page). -/
inductive DueStatus where
  | overdue
  | dueSoon
  | onTrack
deriving DecidableEq, Repr

/-- Embedding of `getStatusColor` / `getStatusIcon`: red (Overdue) when
`daysUntilDue < 0`, yellow (DueSoon) when `daysUntilDue ≤ 7`, else green. -/
def classify (due now : Int) : DueStatus :=
  if daysUntilDue due now < 0 then .overdue
  else if daysUntilDue due now ≤ 7 then .dueSoon
  else .onTrack

/-- The record returned by `fetchDebtorStats`. -/
structure DebtorStats where
  totalOutstanding : Int
  overdueDebtors : Nat
  totalResolved : Int
  activeDebtors : Nat
deriving DecidableEq, Repr

/-- date-fns `isAfter a b`: `a` is strictly after `b`. -/
def isAfter (a b : Int) : Bool := b < a

/-- Embedding of `fetchDebtorStats` (src/lib/debtorStats.ts): filter/reduce
over the full `debtors` table, `now` being the call-time clock. -/
def fetchDebtorStats (now : Int) (allDebtors : List Debtor) : DebtorStats :=
  { totalOutstanding :=
      (allDebtors.filter fun d => !d.is_resolved).foldl
        (fun sum d => sum + d.amount_owed) 0
    overdueDebtors :=
      (allDebtors.filter fun d => !d.is_resolved && isAfter now d.due_date).length
    totalResolved :=
      (allDebtors.filter fun d => d.is_resolved).foldl
        (fun sum d => sum + d.amount_owed) 0
    activeDebtors :=
      (allDebtors.filter fun d => !d.is_resolved).length }

/-- The window query of the Analysis / Dashboard pages:
`.gte("sale_date", start).lte("sale_date", end)`. -/
def selectSalesWindow (start stop : Int) (sales : List Sale) : List Sale :=
  sales.filter fun sa => start ≤ sa.sale_date && sa.sale_date ≤ stop

/-- `totalRevenue`: reduce of `total_amount` over the window query. -/
def totalRevenue (start stop : Int) (sales : List Sale) : Int :=
  (selectSalesWindow start stop sales).foldl (fun sum sa => sum + sa.total_amount) 0

/-- `totalCost`: reduce of `total_cost` over the window query. -/
def totalCost (start stop : Int) (sales : List Sale) : Int :=
  (selectSalesWindow start stop sales).foldl (fun sum sa => sum + sa.total_cost) 0

/-- `totalProfit = totalRevenue - totalCost`. -/
def totalProfit (start stop : Int) (sales : List Sale) : Int :=
  totalRevenue start stop sales - totalCost start stop sales

/-- Modelled from the spec: revenue over a half-open window `[start, stop)`,
as the claim about the reporting functions words it ("sales whose saleDate
lies in the interval `[start, end)`"); compared against `totalRevenue`. -/
def halfOpenRevenue (start stop : Int) (sales : List Sale) : Int :=
  ((sales.filter fun sa => decide (start ≤ sa.sale_date ∧ sa.sale_date < stop)).map
    fun sa => sa.total_amount).sum

/-- Pure description of the customer-resolution step of `createSaleMutation`
in the failure-free execution: reuse the customer when the name lookup
returns exactly one row, otherwise insert a fresh one. -/
def resolveCustomerPure (customerName : String) (email phone : Option String)
    (newCustomerId : Nat) (cs : List Customer) : List Customer × Nat :=
  match singleRow (cs.filter fun c => c.name = customerName) with
  | some c => (cs, c.id)
  | none =>
    (cs ++ [{ id := newCustomerId, name := customerName, email := email, phone := phone }],
     newCustomerId)

/-- The sale header row inserted by `createSaleMutation`. -/
def mkSale (customerId uid saleId : Nat) (now : Int) (cart : List CartLine)
    (pay : PayStatus) (due : Option Int) : Sale :=
  { id := saleId, customer_id := customerId, user_id := uid,
    total_amount := cartTotalAmount cart, total_cost := cartTotalCost cart,
    payment_status := pay, due_date := due, sale_date := now }

/-- The cumulative effect of the failure-free stock-update loop on the
products table. -/
def applyStockWrites (now : Int) (cart : List CartLine) (ps : List Product) :
    List Product :=
  cart.foldl (fun acc l => acc.map (stockWrite now l)) ps

/-- Stock of product `pid` read off a products list with `.single()`. -/
def getStockL (ps : List Product) (pid : Nat) : Option Int :=
  (singleRow (ps.filter fun p => p.id = pid)).map fun p => p.stock_quantity

/-- Total quantity the restore loop of `deleteSaleMutation` adds back onto
product `pid` from the given sale items. -/
def restoredSum (items : List SaleItem) (pid : Nat) : Int :=
  ((items.filter fun it => it.product_id = pid).map fun it => it.quantity).sum

/-- Concrete product used by witnesses: three Widgets in stock. -/
def demoProduct : Product :=
  { id := 1, name := "Widget", category := "general", cost := 10,
    stock_quantity := 3, is_active := true, updated_at := 0 }

/-- Concrete customer used by witnesses. -/
def demoCustomer : Customer :=
  { id := 1, name := "Alice", email := none, phone := none }

/-- Concrete pending sale used by witnesses. -/
def demoSale : Sale :=
  { id := 5, customer_id := 1, user_id := 7, total_amount := 30, total_cost := 20,
    payment_status := .pending, due_date := some 100, sale_date := 0 }

/-- Concrete sale item used by witnesses: two Widgets. -/
def demoItem : SaleItem :=
  { sale_id := 5, product_id := 1, quantity := 2, unit_price := 15, unit_cost := 10 }

/-- Concrete unresolved debtor used by witnesses. -/
def demoDebtor : Debtor :=
  { id := 9, sale_id := 5, customer_id := 1, amount_owed := 30, due_date := 100,
    is_resolved := false, updated_at := 0 }

/-- Concrete store used by witnesses and counterexamples. -/
def demoStore : Store :=
  { products := [demoProduct], customers := [demoCustomer], sales := [demoSale],
    sale_items := [demoItem], debtors := [demoDebtor], notes := [] }

/-- Concrete cart line used by witnesses: two Widgets at price 15. -/
def demoLine : CartLine :=
  { id := 1, name := "Widget", cost := 10, sellingPrice := 15, quantity := 2,
    stock_quantity := 3 }

/-- Second concrete cart line used by witnesses: one Gadget at price 12. -/
def demoLine2 : CartLine :=
  { id := 2, name := "Gadget", cost := 7, sellingPrice := 12, quantity := 1,
    stock_quantity := 4 }

/-- Concrete over-stock cart line used by witnesses: five Widgets against a
cached stock of three. -/
def demoOverLine : CartLine :=
  { id := 1, name := "Widget", cost := 10, sellingPrice := 15, quantity := 5,
    stock_quantity := 3 }

/-- Concrete sale dated exactly at a window's upper endpoint. -/
def demoBoundarySale : Sale :=
  { id := 2, customer_id := 1, user_id := 7, total_amount := 5, total_cost := 2,
    payment_status := .paid, due_date := none, sale_date := 10 }

theorem getStock_eq_getStockL (s : Store) (pid : Nat) :
    getStock s pid = getStockL s.products pid := rfl

theorem singleRow_map {α β : Type} (f : α → β) (l : List α) :
    singleRow (l.map f) = (singleRow l).map f := by
  match l with
  | [] => rfl
  | [a] => rfl
  | a :: b :: rest => rfl

theorem singleRow_mem {α : Type} {l : List α} {a : α}
    (h : singleRow l = some a) : a ∈ l := by
  match l, h with
  | [x], h => simp [singleRow] at h; simp [h]

theorem foldl_add_map_sum {α : Type} (f : α → Int) (l : List α) :
    ∀ a : Int, l.foldl (fun sum x => sum + f x) a = a + (l.map f).sum := by
  induction l with
  | nil => intro a; simp
  | cons x xs ih =>
    intro a
    simp only [List.foldl_cons, List.map_cons, List.sum_cons, ih]
    ring

theorem resolveUpd_id (now : Int) (did : Nat) (d : Debtor) :
    (resolveUpd now did d).id = d.id := by
  unfold resolveUpd
  split <;> rfl

theorem resolveUpd_sale_id (now : Int) (did : Nat) (d : Debtor) :
    (resolveUpd now did d).sale_id = d.sale_id := by
  unfold resolveUpd
  split <;> rfl

theorem resolveUpd_idem (now : Int) (did : Nat) (d : Debtor) :
    resolveUpd now did (resolveUpd now did d) = resolveUpd now did d := by
  unfold resolveUpd
  by_cases h : d.id = did <;> simp [h]

theorem payUpd_id (sid : Nat) (sa : Sale) : (payUpd sid sa).id = sa.id := by
  unfold payUpd
  split <;> rfl

theorem payUpd_idem (sid : Nat) (sa : Sale) :
    payUpd sid (payUpd sid sa) = payUpd sid sa := by
  unfold payUpd
  by_cases h : sa.id = sid <;> simp [h]

theorem filter_id_map_resolveUpd (now : Int) (did pid : Nat) (l : List Debtor) :
    (l.map (resolveUpd now did)).filter (fun d => d.id = pid)
      = (l.filter fun d => d.id = pid).map (resolveUpd now did) := by
  rw [List.filter_map]
  congr 1
  apply List.filter_congr
  intro a _
  simp [Function.comp, resolveUpd_id]

theorem markAsPaid_noFail_eq (now : Int) (did : Nat) (s : Store) :
    markAsPaid noFail now did s =
      match singleRow (s.debtors.filter fun d => d.id = did) with
      | none => ({ s with debtors := s.debtors.map (resolveUpd now did) }, .ok ())
      | some d0 =>
        ({ s with debtors := s.debtors.map (resolveUpd now did),
                  sales := s.sales.map (payUpd d0.sale_id) }, .ok ()) := by
  unfold markAsPaid noFail
  simp only
  rw [filter_id_map_resolveUpd, singleRow_map]
  cases h : singleRow (s.debtors.filter fun d => d.id = did) with
  | none => simp
  | some d0 => simp [resolveUpd_sale_id]

/-- Failure-free `markAsPaid` on an existing debtor succeeds, resolves that
debtor and sets the referenced sale to `paid`. -/
theorem markAsPaid_noFail_both_writes (now : Int) (did : Nat) (s : Store)
    (d0 : Debtor) (h : singleRow (s.debtors.filter fun d => d.id = did) = some d0) :
    ∃ s', markAsPaid noFail now did s = (s', .ok ()) ∧
      (∀ d ∈ s'.debtors, d.id = did → d.is_resolved = true) ∧
      (∀ sa ∈ s'.sales, sa.id = d0.sale_id → sa.payment_status = PayStatus.paid) := by
  refine ⟨⟨s.products, s.customers, s.sales.map (payUpd d0.sale_id), s.sale_items, s.debtors.map (resolveUpd now did), s.notes⟩, ?_, ?_, ?_⟩
  · rw [markAsPaid_noFail_eq, h]
  · intro d hd hid
    obtain ⟨d1, _, rfl⟩ := List.mem_map.1 hd
    have h1 : d1.id = did := by rw [← resolveUpd_id now did d1]; exact hid
    simp [resolveUpd, h1]
  · intro sa hsa hid
    obtain ⟨sa1, _, rfl⟩ := List.mem_map.1 hsa
    have h1 : sa1.id = d0.sale_id := by rw [← payUpd_id d0.sale_id sa1]; exact hid
    simp [payUpd, h1]

/-- With the unchecked debtor re-read failing, `markAsPaid` still succeeds,
having resolved the debtor while leaving the sales table untouched. -/
theorem markAsPaid_reread_fail_one_write (e : String) (now : Int) (did : Nat)
    (s : Store) :
    ∃ s', markAsPaid (failAt .debtorSel e) now did s = (s', .ok ()) ∧
      (∀ d ∈ s'.debtors, d.id = did → d.is_resolved = true) ∧
      s'.sales = s.sales := by
  refine ⟨{ s with debtors := s.debtors.map (resolveUpd now did) }, ?_, ?_, rfl⟩
  · unfold markAsPaid
    rw [show failAt CallSite.debtorSel e CallSite.debtorUpd = none from rfl,
      show failAt CallSite.debtorSel e CallSite.debtorSel = some e from rfl]
  · intro d hd hid
    obtain ⟨d1, _, rfl⟩ := List.mem_map.1 hd
    have h1 : d1.id = did := by rw [← resolveUpd_id now did d1]; exact hid
    simp [resolveUpd, h1]

/-- C1 counterexample: inject a failure into the debtor re-read of
`markAsPaid` on the demo store (debtor 9, unresolved, referencing pending
sale 5).  The mutation completes with `.ok` — the re-read's error is
discarded by the source — yet only the debtor write took effect: the debtor
is resolved while sale 5 still has `payment_status = pending`.  A
successful completion with one write and not the other refutes "both writes
take effect together, never one without the other". -/
theorem markPaid_success_with_single_write :
    (markAsPaid (failAt .debtorSel "boom") 50 9 demoStore).2 = .ok () ∧
      (markAsPaid (failAt .debtorSel "boom") 50 9 demoStore).1.debtors
        = [{ demoDebtor with is_resolved := true, updated_at := 50 }] ∧
      (markAsPaid (failAt .debtorSel "boom") 50 9 demoStore).1.sales = [demoSale] ∧
      demoDebtor.sale_id = demoSale.id ∧
      demoSale.payment_status = PayStatus.pending := by
  refine ⟨rfl, rfl, rfl, rfl, rfl⟩

/-- C1 (amended): for every debtor that exists in the store, the
failure-free `markAsPaid` completes successfully and leaves that debtor
resolved and the referenced sale with `payment_status = paid` — but a
successful completion alone does not guarantee both writes: the debtor
re-read's error is not checked, so when that read fails `markAsPaid` still
returns success having resolved the debtor while leaving the sales table
(and so the referenced sale's payment status) unchanged. -/
theorem markPaid_coupled_writes_corrected :
    (∀ (now : Int) (did : Nat) (s : Store) (d0 : Debtor),
      singleRow (s.debtors.filter fun d => d.id = did) = some d0 →
      ∃ s', markAsPaid noFail now did s = (s', .ok ()) ∧
        (∀ d ∈ s'.debtors, d.id = did → d.is_resolved = true) ∧
        (∀ sa ∈ s'.sales, sa.id = d0.sale_id → sa.payment_status = PayStatus.paid)) ∧
    (∀ (e : String) (now : Int) (did : Nat) (s : Store),
      ∃ s', markAsPaid (failAt .debtorSel e) now did s = (s', .ok ()) ∧
        (∀ d ∈ s'.debtors, d.id = did → d.is_resolved = true) ∧
        s'.sales = s.sales) :=
  ⟨markAsPaid_noFail_both_writes, markAsPaid_reread_fail_one_write⟩

/-- Witness for C1 (amended) at the demo store: debtor 9 references sale 5;
the failure-free run pays the sale, the failing-re-read run leaves the
sales table untouched while still reporting success. -/
theorem markPaid_coupled_writes_corrected_witness :
    (∃ s', markAsPaid noFail 50 9 demoStore = (s', .ok ()) ∧
      (∀ d ∈ s'.debtors, d.id = 9 → d.is_resolved = true) ∧
      (∀ sa ∈ s'.sales, sa.id = demoDebtor.sale_id → sa.payment_status = PayStatus.paid)) ∧
    (∃ s', markAsPaid (failAt .debtorSel "boom") 50 9 demoStore = (s', .ok ()) ∧
      (∀ d ∈ s'.debtors, d.id = 9 → d.is_resolved = true) ∧
      s'.sales = demoStore.sales) :=
  ⟨markPaid_coupled_writes_corrected.1 50 9 demoStore demoDebtor rfl,
    markPaid_coupled_writes_corrected.2 "boom" 50 9 demoStore⟩

/-- C9: the failure-free `markAsPaid` never checks `is_resolved`, so it
succeeds on any debtor id — resolved, unresolved or absent — and running it
a second time (with the same clock) returns the exact same store: twice
equals once. -/
theorem markPaid_total_and_idempotent (now : Int) (did : Nat) (s : Store) :
    ∃ s1, markAsPaid noFail now did s = (s1, .ok ()) ∧
      markAsPaid noFail now did s1 = (s1, .ok ()) := by
  have hmapmap : ∀ l : List Debtor,
      (l.map (resolveUpd now did)).map (resolveUpd now did) = l.map (resolveUpd now did) := by
    intro l
    rw [List.map_map]
    apply List.map_congr_left
    intro d _
    exact resolveUpd_idem now did d
  cases h : singleRow (s.debtors.filter fun d => d.id = did) with
  | none =>
    refine ⟨{ s with debtors := s.debtors.map (resolveUpd now did) }, ?_, ?_⟩
    · rw [markAsPaid_noFail_eq, h]
    · rw [markAsPaid_noFail_eq]
      have h2 : singleRow (((s.debtors.map (resolveUpd now did)).filter
          fun d => d.id = did)) = none := by
        rw [filter_id_map_resolveUpd, singleRow_map, h]
        rfl
      rw [show ({ s with debtors := s.debtors.map (resolveUpd now did) } : Store).debtors
            = s.debtors.map (resolveUpd now did) from rfl, h2]
      simp [hmapmap]
  | some d0 =>
    refine ⟨⟨s.products, s.customers, s.sales.map (payUpd d0.sale_id), s.sale_items, s.debtors.map (resolveUpd now did), s.notes⟩, ?_, ?_⟩
    · rw [markAsPaid_noFail_eq, h]
    · rw [markAsPaid_noFail_eq]
      have h2 : singleRow (((s.debtors.map (resolveUpd now did)).filter
          fun d => d.id = did)) = some (resolveUpd now did d0) := by
        rw [filter_id_map_resolveUpd, singleRow_map, h]
        rfl
      rw [show (Store.mk s.products s.customers (s.sales.map (payUpd d0.sale_id)) s.sale_items (s.debtors.map (resolveUpd now did)) s.notes).debtors
            = s.debtors.map (resolveUpd now did) from rfl, h2]
      have hsales : (s.sales.map (payUpd d0.sale_id)).map
          (payUpd (resolveUpd now did d0).sale_id) = s.sales.map (payUpd d0.sale_id) := by
        rw [resolveUpd_sale_id, List.map_map]
        apply List.map_congr_left
        intro sa _
        exact payUpd_idem d0.sale_id sa
      simp [hmapmap, hsales]

theorem daysUntilDue_eq_ediv (due now : Int) :
    daysUntilDue due now = -((-(due - now)) / 86400000) := by
  unfold daysUntilDue
  rw [Int.fdiv_eq_ediv _ (by norm_num [msPerDay])]
  norm_num [msPerDay]

theorem daysUntilDue_eq_ceil (due now : Int) :
    daysUntilDue due now = ⌈((due - now : Int) : ℚ) / ((msPerDay : Int) : ℚ)⌉ := by
  have hd : ((msPerDay : Int) : ℚ) = ((86400000 : ℕ) : ℚ) := by norm_num [msPerDay]
  rw [hd]
  have h : ((-(due - now) : ℤ) : ℚ) / ((86400000 : ℕ) : ℚ)
      = -(((due - now : Int) : ℚ) / ((86400000 : ℕ) : ℚ)) := by
    push_cast
    ring
  have h2 := Rat.floor_intCast_div_natCast (-(due - now)) 86400000
  rw [h, Int.floor_neg] at h2
  rw [daysUntilDue_eq_ediv]
  omega

theorem classify_overdue_iff (due now : Int) :
    classify due now = DueStatus.overdue ↔ daysUntilDue due now < 0 := by
  unfold classify
  split
  · simp_all
  · split <;> simp_all

/-- C5 counterexample: with `dueDate` one millisecond before `now`
(`due = 0`, `now = 1`) the computed days-until-due is `⌈-1/86400000⌉ = 0`,
so the code classifies the debtor as DueSoon ("due today"), not Overdue —
the claim that one millisecond in the past is already Overdue is false. -/
theorem classify_one_ms_past_not_overdue :
    daysUntilDue 0 1 = 0 ∧ classify 0 1 = DueStatus.dueSoon ∧
      classify 0 1 ≠ DueStatus.overdue := by
  refine ⟨by decide, by decide, by decide⟩

/-- C5 (amended): `daysUntilDue` is the exact ceiling of
`(dueDate − now) / msPerDay`, a due date equal to `now` gives days-until-due
0 and is not Overdue, and the classification is Overdue exactly when
`daysUntilDue < 0`, i.e. exactly when the due date lies at least one full
day (86400000 ms) in the past — not already when `dueDate < now`: one
millisecond past is still DueSoon. -/
theorem classify_ceiling_and_overdue_boundary (due now : Int) :
    daysUntilDue due now = ⌈((due - now : Int) : ℚ) / ((msPerDay : Int) : ℚ)⌉ ∧
      (classify due now = DueStatus.overdue ↔ due + msPerDay ≤ now) ∧
      daysUntilDue now now = 0 ∧ classify now now = DueStatus.dueSoon ∧
      classify (now - 1) now = DueStatus.dueSoon := by
  have hms : msPerDay = 86400000 := by norm_num [msPerDay]
  refine ⟨daysUntilDue_eq_ceil due now, ?_, ?_, ?_, ?_⟩
  · rw [classify_overdue_iff, daysUntilDue_eq_ediv]
    omega
  · rw [daysUntilDue_eq_ediv]
    omega
  · have h0 : daysUntilDue now now = 0 := by rw [daysUntilDue_eq_ediv]; omega
    unfold classify
    rw [h0]
    norm_num
  · have h0 : daysUntilDue (now - 1) now = 0 := by rw [daysUntilDue_eq_ediv]; omega
    unfold classify
    rw [h0]
    norm_num

/-- Witness for C5 (amended) at a concrete pair of clocks. -/
theorem classify_ceiling_and_overdue_boundary_witness :
    daysUntilDue 100 86400200 = ⌈((100 - 86400200 : Int) : ℚ) / ((msPerDay : Int) : ℚ)⌉ ∧
      (classify 100 86400200 = DueStatus.overdue ↔ (100 : Int) + msPerDay ≤ 86400200) ∧
      daysUntilDue 86400200 86400200 = 0 ∧
      classify 86400200 86400200 = DueStatus.dueSoon ∧
      classify (86400200 - 1) 86400200 = DueStatus.dueSoon :=
  classify_ceiling_and_overdue_boundary 100 86400200

/-- C7: over any snapshot of the `debtors` table, `fetchDebtorStats` sums
`amount_owed` over all unresolved debtors (no date filtering) for the
outstanding total, over all resolved debtors for the resolved total, counts
the unresolved debtors whose due date is strictly before the call-time
clock, and yields all-zero statistics on the empty snapshot. -/
theorem fetchDebtorStats_correct (now : Int) (ds : List Debtor) :
    (fetchDebtorStats now ds).totalOutstanding
        = ((ds.filter fun d => decide (d.is_resolved = false)).map fun d => d.amount_owed).sum ∧
      (fetchDebtorStats now ds).overdueDebtors
        = (ds.filter fun d => decide (d.is_resolved = false ∧ d.due_date < now)).length ∧
      (fetchDebtorStats now ds).totalResolved
        = ((ds.filter fun d => decide (d.is_resolved = true)).map fun d => d.amount_owed).sum ∧
      fetchDebtorStats now [] = ⟨0, 0, 0, 0⟩ := by
  have hp : (fun (d : Debtor) => !d.is_resolved) = (fun d => decide (d.is_resolved = false)) := by
    funext d
    cases h : d.is_resolved <;> simp [h]
  have hr : (fun (d : Debtor) => d.is_resolved) = (fun d => decide (d.is_resolved = true)) := by
    funext d
    cases h : d.is_resolved <;> simp [h]
  have ho : (fun (d : Debtor) => !d.is_resolved && isAfter now d.due_date)
      = (fun d => decide (d.is_resolved = false ∧ d.due_date < now)) := by
    funext d
    cases h : d.is_resolved <;> by_cases h2 : d.due_date < now <;> simp [h, h2, isAfter]
  refine ⟨?_, ?_, ?_, rfl⟩
  · unfold fetchDebtorStats
    dsimp only
    rw [foldl_add_map_sum, hp]
    simp
  · unfold fetchDebtorStats
    dsimp only
    rw [ho]
  · unfold fetchDebtorStats
    dsimp only
    rw [foldl_add_map_sum, hr]
    simp

/-- C8 counterexample: a sale dated exactly at the window's upper endpoint
(`sale_date = 10`, window `start = 0`, `stop = 10`) is included by the
code's `gte`/`lte` query — `totalRevenue` returns its amount 5 — while the
claimed half-open interval `[start, stop)` excludes it (sum 0). -/
theorem window_includes_upper_endpoint :
    totalRevenue 0 10 [demoBoundarySale] = 5 ∧
      halfOpenRevenue 0 10 [demoBoundarySale] = 0 ∧
      totalRevenue 0 10 [demoBoundarySale] ≠ halfOpenRevenue 0 10 [demoBoundarySale] := by
  refine ⟨by decide, by decide, by decide⟩

/-- C8 (amended): over any snapshot and caller-supplied window, the
reporting code computes revenue as the sum of `total_amount`, cost as the
sum of `total_cost`, and profit as their difference, over exactly the sales
whose `sale_date` lies in the closed interval `[start, stop]` — both
endpoints included, not the half-open `[start, stop)`. -/
theorem window_totals_closed_interval (start stop : Int) (sales : List Sale) :
    totalRevenue start stop sales
        = ((sales.filter fun sa => decide (start ≤ sa.sale_date ∧ sa.sale_date ≤ stop)).map
            fun sa => sa.total_amount).sum ∧
      totalCost start stop sales
        = ((sales.filter fun sa => decide (start ≤ sa.sale_date ∧ sa.sale_date ≤ stop)).map
            fun sa => sa.total_cost).sum ∧
      totalProfit start stop sales
        = totalRevenue start stop sales - totalCost start stop sales := by
  have hf : (sales.filter fun sa => start ≤ sa.sale_date && sa.sale_date ≤ stop)
      = sales.filter fun sa => decide (start ≤ sa.sale_date ∧ sa.sale_date ≤ stop) := by
    apply List.filter_congr
    intro sa _
    by_cases h1 : start ≤ sa.sale_date <;> by_cases h2 : sa.sale_date ≤ stop <;>
      simp [h1, h2]
  refine ⟨?_, ?_, rfl⟩
  · unfold totalRevenue selectSalesWindow
    rw [foldl_add_map_sum, hf]
    simp
  · unfold totalCost selectSalesWindow
    rw [foldl_add_map_sum, hf]
    simp

theorem stockUpdateLoop_noFail_eq (now : Int) (cart : List CartLine) :
    ∀ s : Store, stockUpdateLoop noFail now cart s
      = ({ s with products := applyStockWrites now cart s.products }, .ok ()) := by
  induction cart with
  | nil =>
    intro s
    simp [stockUpdateLoop, applyStockWrites]
  | cons l rest ih =>
    intro s
    simp only [stockUpdateLoop, noFail]
    rw [ih]
    simp [applyStockWrites]

theorem createSale_noFail_eq (uid : Nat) (now : Int) (name : String)
    (email phone : Option String) (cart : List CartLine) (pay : PayStatus)
    (due : Option Int) (ncid nsid : Nat) (s : Store) :
    createSale noFail (some uid) now name email phone cart pay due ncid nsid s
      = (⟨applyStockWrites now cart s.products,
          (resolveCustomerPure name email phone ncid s.customers).1,
          s.sales ++ [mkSale (resolveCustomerPure name email phone ncid s.customers).2 uid nsid now cart pay due],
          s.sale_items ++ cartItems nsid cart,
          s.debtors, s.notes⟩,
         .ok (mkSale (resolveCustomerPure name email phone ncid s.customers).2 uid nsid now cart pay due)) := by
  unfold createSale createSaleRest resolveCustomerPure noFail
  cases h : singleRow (s.customers.filter fun c => c.name = name) with
  | some c =>
    simp only [h]
    rw [show (fun x : CallSite => (none : Option String)) = noFail from rfl,
      stockUpdateLoop_noFail_eq]
    simp [mkSale]
  | none =>
    simp only [h]
    rw [show (fun x : CallSite => (none : Option String)) = noFail from rfl,
      stockUpdateLoop_noFail_eq]
    simp [mkSale]

theorem handleSubmit_noFail_eq (uid : Nat) (now : Int) (name : String)
    (email phone : Option String) (cart : List CartLine) (pay : PayStatus)
    (due : Option Int) (ncid nsid : Nat) (s : Store)
    (hname : ¬ name = "") (hcart : cart ≠ [])
    (hstock : ∀ l ∈ cart, l.quantity ≤ l.stock_quantity) :
    handleSubmit noFail (some uid) now name email phone cart pay due ncid nsid s
      = createSale noFail (some uid) now name email phone cart pay due ncid nsid s := by
  unfold handleSubmit
  rw [if_neg (by simp [hname, hcart])]
  have hissues : (cart.filter fun p => p.stock_quantity < p.quantity) = [] := by
    rw [List.filter_eq_nil_iff]
    intro l hl
    simp only [decide_eq_true_eq, not_lt]
    exact hstock l hl
  simp [hissues]

/-- C3: for every non-empty in-stock cart, the submitted sale's
`total_amount` is exactly the sum of `sellingPrice × quantity` over the cart
lines, its `total_cost` is exactly the sum of `cost × quantity`, and one
`sale_items` row is inserted per cart line carrying that line's quantity,
unit price and unit cost. -/
theorem createSale_totals_and_items (uid : Nat) (now : Int) (name : String)
    (email phone : Option String) (cart : List CartLine) (pay : PayStatus)
    (due : Option Int) (ncid nsid : Nat) (s : Store)
    (hname : ¬ name = "") (hcart : cart ≠ [])
    (hstock : ∀ l ∈ cart, l.quantity ≤ l.stock_quantity) :
    ∃ s' sale,
      handleSubmit noFail (some uid) now name email phone cart pay due ncid nsid s
        = (s', .ok sale) ∧
      sale.total_amount = (cart.map fun l => l.sellingPrice * l.quantity).sum ∧
      sale.total_cost = (cart.map fun l => l.cost * l.quantity).sum ∧
      s'.sale_items = s.sale_items ++ cart.map (fun l =>
        { sale_id := nsid, product_id := l.id, quantity := l.quantity,
          unit_price := l.sellingPrice, unit_cost := l.cost }) := by
  rw [handleSubmit_noFail_eq uid now name email phone cart pay due ncid nsid s hname
    hcart hstock, createSale_noFail_eq]
  refine ⟨_, _, rfl, ?_, ?_, rfl⟩
  · show cartTotalAmount cart = _
    unfold cartTotalAmount
    rw [foldl_add_map_sum]
    simp
  · show cartTotalCost cart = _
    unfold cartTotalCost
    rw [foldl_add_map_sum]
    simp

/-- Witness for C3 at a concrete two-line cart against the demo store. -/
theorem createSale_totals_and_items_witness :
    ∃ s' sale,
      handleSubmit noFail (some 7) 20 "Alice" none none [demoLine, demoLine2]
          PayStatus.paid none 11 12 demoStore
        = (s', .ok sale) ∧
      sale.total_amount = ([demoLine, demoLine2].map fun l => l.sellingPrice * l.quantity).sum ∧
      sale.total_cost = ([demoLine, demoLine2].map fun l => l.cost * l.quantity).sum ∧
      s'.sale_items = demoStore.sale_items ++ [demoLine, demoLine2].map (fun l =>
        { sale_id := 12, product_id := l.id, quantity := l.quantity,
          unit_price := l.sellingPrice, unit_cost := l.cost }) :=
  createSale_totals_and_items 7 20 "Alice" none none [demoLine, demoLine2]
    PayStatus.paid none 11 12 demoStore (by decide) (by decide) (by decide)

theorem handleSubmit_insufficient (fail : FailOracle) (user : Option Nat)
    (now : Int) (name : String) (email phone : Option String)
    (cart : List CartLine) (pay : PayStatus) (due : Option Int)
    (ncid nsid : Nat) (s : Store)
    (hname : ¬ name = "") (l : CartLine) (hl : l ∈ cart)
    (hq : l.stock_quantity < l.quantity) :
    handleSubmit fail user now name email phone cart pay due ncid nsid s
      = (s, .error (.insufficientStock
          ((cart.filter fun p => p.stock_quantity < p.quantity).map fun p => p.name))) := by
  have hcart : cart ≠ [] := by
    intro hnil
    rw [hnil] at hl
    exact (List.not_mem_nil l) hl
  unfold handleSubmit
  rw [if_neg (by simp [hname, hcart])]
  have hne : (cart.filter fun p => p.stock_quantity < p.quantity) ≠ [] := by
    intro hnil
    rw [List.filter_eq_nil_iff] at hnil
    exact hnil l hl (by simpa using hq)
  have hemp : (cart.filter fun p => p.stock_quantity < p.quantity).isEmpty = false := by
    cases hfe : (cart.filter fun p => p.stock_quantity < p.quantity) with
    | nil => exact absurd hfe hne
    | cons a as => rfl
  simp [hemp]

/-- C4: a submission whose cart requests more of some product than its
cached stock fails with an InsufficientStock error listing exactly the
offending product names, and the returned store is the input store
unchanged: no sale row, no sale-item row, no stock write — under any fault
oracle, because the check runs before any store call. -/
theorem insufficientStock_rejects_without_writes (fail : FailOracle)
    (user : Option Nat) (now : Int) (name : String)
    (email phone : Option String) (cart : List CartLine) (pay : PayStatus)
    (due : Option Int) (ncid nsid : Nat) (s : Store)
    (hname : ¬ name = "") (l : CartLine) (hl : l ∈ cart)
    (hq : l.stock_quantity < l.quantity) :
    handleSubmit fail user now name email phone cart pay due ncid nsid s
      = (s, .error (.insufficientStock
          ((cart.filter fun p => p.stock_quantity < p.quantity).map fun p => p.name))) :=
  handleSubmit_insufficient fail user now name email phone cart pay due ncid nsid s
    hname l hl hq

/-- Witness for C4: requesting five Widgets against a cached stock of three
rejects the submission, names "Widget", and leaves the demo store intact. -/
theorem insufficientStock_rejects_without_writes_witness :
    handleSubmit noFail (some 7) 20 "Alice" none none [demoOverLine]
        PayStatus.pending (some 100) 11 12 demoStore
      = (demoStore, .error (.insufficientStock
          (([demoOverLine].filter fun p => p.stock_quantity < p.quantity).map
            fun p => p.name))) :=
  insufficientStock_rejects_without_writes noFail (some 7) 20 "Alice" none none
    [demoOverLine] PayStatus.pending (some 100) 11 12 demoStore (by decide)
    demoOverLine (by decide) (by decide)

theorem stockWrite_id (now : Int) (l : CartLine) (p : Product) :
    (stockWrite now l p).id = p.id := by
  unfold stockWrite
  split <;> rfl

theorem restoreWrite_id (now : Int) (item : SaleItem) (p q : Product) :
    (restoreWrite now item p q).id = q.id := by
  unfold restoreWrite
  split <;> rfl

theorem filter_id_map_prod (f : Product → Product) (hf : ∀ p, (f p).id = p.id)
    (pid : Nat) (ps : List Product) :
    (ps.map f).filter (fun p => p.id = pid) = (ps.filter fun p => p.id = pid).map f := by
  rw [List.filter_map]
  congr 1
  apply List.filter_congr
  intro p _
  simp [Function.comp, hf]

theorem getStockL_map_stockWrite (now : Int) (l : CartLine) (pid : Nat)
    (ps : List Product) :
    getStockL (ps.map (stockWrite now l)) pid
      = if l.id = pid then (getStockL ps pid).map (fun _ => l.stock_quantity - l.quantity)
        else getStockL ps pid := by
  unfold getStockL
  rw [filter_id_map_prod _ (stockWrite_id now l) pid ps, singleRow_map]
  cases h : singleRow (ps.filter fun p => p.id = pid) with
  | none => split <;> rfl
  | some p =>
    have hpid : p.id = pid := by
      have hm := singleRow_mem h
      rw [List.mem_filter] at hm
      simpa using hm.2
    by_cases hl : l.id = pid
    · rw [if_pos hl]
      simp [stockWrite, hpid, hl]
    · rw [if_neg hl]
      have hl' : ¬ pid = l.id := fun hh => hl hh.symm
      simp [stockWrite, hpid, hl']

theorem getStockL_applyStockWrites_of_none (now : Int) (pid : Nat) :
    ∀ (cart : List CartLine) (ps : List Product),
      (cart.filter fun c => c.id = pid) = [] →
      getStockL (applyStockWrites now cart ps) pid = getStockL ps pid := by
  intro cart
  induction cart with
  | nil => intro ps _; rfl
  | cons c rest ih =>
    intro ps hf
    rw [List.filter_cons] at hf
    by_cases hc : c.id = pid
    · rw [if_pos (by simpa using hc)] at hf
      exact absurd hf (by simp)
    · rw [if_neg (by simpa using hc)] at hf
      show getStockL (applyStockWrites now rest (ps.map (stockWrite now c))) pid = _
      rw [ih _ hf, getStockL_map_stockWrite, if_neg hc]

theorem getStockL_applyStockWrites (now : Int) (pid : Nat) (l : CartLine) :
    ∀ (cart : List CartLine) (ps : List Product),
      (cart.filter fun c => c.id = pid) = [l] →
      getStockL (applyStockWrites now cart ps) pid
        = (getStockL ps pid).map (fun _ => l.stock_quantity - l.quantity) := by
  intro cart
  induction cart with
  | nil => intro ps hf; exact absurd hf (by simp)
  | cons c rest ih =>
    intro ps hf
    rw [List.filter_cons] at hf
    by_cases hc : c.id = pid
    · rw [if_pos (by simpa using hc)] at hf
      rw [List.cons.injEq] at hf
      obtain ⟨rfl, hrest⟩ := hf
      show getStockL (applyStockWrites now rest (ps.map (stockWrite now c))) pid = _
      rw [getStockL_applyStockWrites_of_none now pid rest _ hrest,
        getStockL_map_stockWrite, if_pos hc]
    · rw [if_neg (by simpa using hc)] at hf
      show getStockL (applyStockWrites now rest (ps.map (stockWrite now c))) pid = _
      rw [ih _ hf, getStockL_map_stockWrite, if_neg hc]

theorem getStockL_map_restoreWrite (now : Int) (item : SaleItem) (p : Product)
    (pid : Nat) (ps : List Product) :
    getStockL (ps.map (restoreWrite now item p)) pid
      = if pid = item.product_id
        then (getStockL ps pid).map (fun _ => p.stock_quantity + item.quantity)
        else getStockL ps pid := by
  unfold getStockL
  rw [filter_id_map_prod _ (restoreWrite_id now item p) pid ps, singleRow_map]
  cases h : singleRow (ps.filter fun q => q.id = pid) with
  | none => split <;> rfl
  | some q =>
    have hpid : q.id = pid := by
      have hm := singleRow_mem h
      rw [List.mem_filter] at hm
      simpa using hm.2
    by_cases hi : pid = item.product_id
    · rw [if_pos hi]
      have hq : q.id = item.product_id := hpid.trans hi
      simp [restoreWrite, hq]
    · rw [if_neg hi]
      have hq : ¬ q.id = item.product_id := by
        rw [hpid]
        exact hi
      simp [restoreWrite, hq]

theorem getStock_restoreStep (now : Int) (item : SaleItem) (s : Store) (pid : Nat) :
    getStock (restoreStep noFail now s item) pid
      = if item.product_id = pid then (getStock s pid).map (fun v => v + item.quantity)
        else getStock s pid := by
  unfold restoreStep
  rw [show noFail (CallSite.prodSel item.product_id) = none from rfl,
    show noFail (CallSite.restoreUpd item.product_id) = none from rfl]
  cases h : singleRow (s.products.filter fun p => p.id = item.product_id) with
  | none =>
    simp only [h]
    by_cases hi : item.product_id = pid
    · rw [if_pos hi]
      rw [hi] at h
      rw [show getStock s pid
          = (singleRow (s.products.filter fun p => p.id = pid)).map
              (fun p => p.stock_quantity) from rfl, h]
      rfl
    · rw [if_neg hi]
  | some p =>
    simp only [h]
    rw [show getStock ({ s with products := s.products.map (restoreWrite now item p) } : Store) pid
        = getStockL (s.products.map (restoreWrite now item p)) pid from rfl]
    rw [getStockL_map_restoreWrite]
    by_cases hi : item.product_id = pid
    · rw [if_pos hi, if_pos hi.symm]
      rw [hi] at h
      rw [show getStock s pid = getStockL s.products pid from rfl]
      unfold getStockL
      rw [h]
      simp
    · rw [if_neg hi, if_neg (fun hh => hi hh.symm)]
      rfl

theorem getStock_restoreFold (now : Int) (pid : Nat) :
    ∀ (items : List SaleItem) (s : Store),
      getStock (items.foldl (restoreStep noFail now) s) pid
        = (getStock s pid).map (fun v => v + restoredSum items pid) := by
  intro items
  induction items with
  | nil =>
    intro s
    unfold restoredSum
    cases hg : getStock s pid <;> simp [hg]
  | cons it rest ih =>
    intro s
    rw [List.foldl_cons, ih, getStock_restoreStep]
    by_cases hi : it.product_id = pid
    · rw [if_pos hi]
      unfold restoredSum
      rw [List.filter_cons, if_pos (by simpa using hi)]
      cases hg : getStock s pid <;> simp [hg, add_assoc]
    · rw [if_neg hi]
      unfold restoredSum
      rw [List.filter_cons, if_neg (by simpa using hi)]

theorem deleteSale_noFail_eq (now : Int) (sid : Nat) (s : Store) :
    deleteSale noFail now sid s =
      (let s1 := (s.sale_items.filter fun it => it.sale_id = sid).foldl
          (restoreStep noFail now) s
       ({ s1 with sales := s1.sales.filter fun sa => sa.id ≠ sid }, .ok ())) := by
  unfold deleteSale
  rw [show noFail CallSite.itemsSel = none from rfl,
    show noFail CallSite.saleDel = none from rfl]

/-- C2: the stock invariant.  (a) A successful submission whose cart has the
single line for product `pid` with quantity `q` and a fresh cached stock `S`
(equal to the store's) leaves that product's stock at exactly `S − q`.
(b) When the cart requests `q > S` of that product the submission is
rejected with InsufficientStock and the store is returned unchanged.
(c) The failure-free `deleteSale` succeeds and adds back onto the product
exactly the summed quantity of the deleted sale's items for it — plain
addition `S + q`, with no upper clamp. -/
theorem stock_invariant :
    (∀ (uid : Nat) (now : Int) (name : String) (email phone : Option String)
        (cart : List CartLine) (pay : PayStatus) (due : Option Int)
        (ncid nsid pid : Nat) (s : Store) (l : CartLine),
      ¬ name = "" →
      (cart.filter fun c => c.id = pid) = [l] →
      (∀ l' ∈ cart, l'.quantity ≤ l'.stock_quantity) →
      getStock s pid = some l.stock_quantity →
      ∃ s' sale,
        handleSubmit noFail (some uid) now name email phone cart pay due ncid nsid s
          = (s', .ok sale) ∧
        getStock s' pid = some (l.stock_quantity - l.quantity)) ∧
    (∀ (uid : Nat) (now : Int) (name : String) (email phone : Option String)
        (cart : List CartLine) (pay : PayStatus) (due : Option Int)
        (ncid nsid : Nat) (s : Store) (l : CartLine),
      ¬ name = "" → l ∈ cart → l.stock_quantity < l.quantity →
      ∃ names, handleSubmit noFail (some uid) now name email phone cart pay due ncid nsid s
          = (s, .error (.insufficientStock names))) ∧
    (∀ (now : Int) (sid pid : Nat) (s : Store) (S : Int),
      getStock s pid = some S →
      ∃ s', deleteSale noFail now sid s = (s', .ok ()) ∧
        getStock s' pid
          = some (S + restoredSum (s.sale_items.filter fun it => it.sale_id = sid) pid)) := by
  refine ⟨?_, ?_, ?_⟩
  · intro uid now name email phone cart pay due ncid nsid pid s l hname hfilter hstock hS
    have hcart : cart ≠ [] := by
      intro hnil
      rw [hnil] at hfilter
      exact absurd hfilter (by simp)
    rw [handleSubmit_noFail_eq uid now name email phone cart pay due ncid nsid s hname
      hcart hstock, createSale_noFail_eq]
    refine ⟨_, _, rfl, ?_⟩
    rw [show getStock (⟨applyStockWrites now cart s.products,
        (resolveCustomerPure name email phone ncid s.customers).1,
        s.sales ++ [mkSale (resolveCustomerPure name email phone ncid s.customers).2
          uid nsid now cart pay due],
        s.sale_items ++ cartItems nsid cart, s.debtors, s.notes⟩ : Store) pid
      = getStockL (applyStockWrites now cart s.products) pid from rfl]
    rw [getStockL_applyStockWrites now pid l cart s.products hfilter]
    rw [show getStock s pid = getStockL s.products pid from rfl] at hS
    rw [hS]
    rfl
  · intro uid now name email phone cart pay due ncid nsid s l hname hl hq
    exact ⟨_, handleSubmit_insufficient noFail (some uid) now name email phone cart
      pay due ncid nsid s hname l hl hq⟩
  · intro now sid pid s S hS
    rw [deleteSale_noFail_eq]
    refine ⟨_, rfl, ?_⟩
    rw [show getStock ({ (s.sale_items.filter fun it => it.sale_id = sid).foldl
          (restoreStep noFail now) s with
        sales := ((s.sale_items.filter fun it => it.sale_id = sid).foldl
          (restoreStep noFail now) s).sales.filter fun sa => sa.id ≠ sid } : Store) pid
      = getStock ((s.sale_items.filter fun it => it.sale_id = sid).foldl
          (restoreStep noFail now) s) pid from rfl]
    rw [getStock_restoreFold, hS]
    rfl

/-- Witness for C2: selling two Widgets moves the demo stock 3 to 1;
requesting five is rejected with the store unchanged; deleting demo sale 5
(two Widgets) moves stock 3 to 5. -/
theorem stock_invariant_witness :
    (∃ s' sale,
      handleSubmit noFail (some 7) 20 "Alice" none none [demoLine]
          PayStatus.paid none 11 12 demoStore = (s', .ok sale) ∧
        getStock s' 1 = some (demoLine.stock_quantity - demoLine.quantity)) ∧
    (∃ names, handleSubmit noFail (some 7) 20 "Alice" none none [demoOverLine]
          PayStatus.paid none 11 12 demoStore
        = (demoStore, .error (.insufficientStock names))) ∧
    (∃ s', deleteSale noFail 30 5 demoStore = (s', .ok ()) ∧
      getStock s' 1
        = some (3 + restoredSum (demoStore.sale_items.filter fun it => it.sale_id = 5) 1)) :=
  ⟨stock_invariant.1 7 20 "Alice" none none [demoLine] PayStatus.paid none 11 12 1
      demoStore demoLine (by decide) (by decide) (by decide) (by decide),
    stock_invariant.2.1 7 20 "Alice" none none [demoOverLine] PayStatus.paid none 11 12
      demoStore demoOverLine (by decide) (by decide) (by decide),
    stock_invariant.2.2 30 5 1 demoStore 3 (by decide)⟩

theorem stockUpdateLoop_frame (fail : FailOracle) (now : Int) :
    ∀ (cart : List CartLine) (s : Store),
      (stockUpdateLoop fail now cart s).1.debtors = s.debtors ∧
      (stockUpdateLoop fail now cart s).1.notes = s.notes := by
  intro cart
  induction cart with
  | nil => intro s; exact ⟨rfl, rfl⟩
  | cons l rest ih =>
    intro s
    unfold stockUpdateLoop
    cases fail (.stockUpd l.id) with
    | some e => exact ⟨rfl, rfl⟩
    | none => exact ih _

theorem createSaleRest_frame (fail : FailOracle) (uid : Nat) (now : Int)
    (cart : List CartLine) (pay : PayStatus) (due : Option Int)
    (nsid cid : Nat) (s1 : Store) :
    (createSaleRest fail uid now cart pay due nsid cid s1).1.debtors = s1.debtors ∧
    (createSaleRest fail uid now cart pay due nsid cid s1).1.notes = s1.notes := by
  unfold createSaleRest
  repeat' split
  all_goals try exact ⟨rfl, rfl⟩
  all_goals dsimp only
  all_goals repeat' split
  all_goals rename_i s4 res heq
  all_goals exact
    ⟨(congrArg (fun r => r.1.debtors) heq).symm.trans (stockUpdateLoop_frame fail now cart _).1,
     (congrArg (fun r => r.1.notes) heq).symm.trans (stockUpdateLoop_frame fail now cart _).2⟩

/-- C10: `createSale` (behind `handleSubmit`) writes only to the customers,
sales, sale-items and products tables: under every fault oracle, every
user, every payment status — `pending` included — the `debtors` table (and
the `notes` table) of the resulting store is exactly the input one; no
debtor row is inserted or updated by this operation. -/
theorem createSale_never_touches_debtors (fail : FailOracle) (user : Option Nat)
    (now : Int) (name : String) (email phone : Option String)
    (cart : List CartLine) (pay : PayStatus) (due : Option Int)
    (ncid nsid : Nat) (s : Store) :
    (handleSubmit fail user now name email phone cart pay due ncid nsid s).1.debtors
        = s.debtors ∧
      (handleSubmit fail user now name email phone cart pay due ncid nsid s).1.notes
        = s.notes := by
  unfold handleSubmit
  split
  · exact ⟨rfl, rfl⟩
  · dsimp only
    split
    · unfold createSale
      cases user with
      | none => exact ⟨rfl, rfl⟩
      | some uid =>
        dsimp only
        cases hcs : fail CallSite.custSel with
        | some e =>
          dsimp only
          cases hci : fail CallSite.custIns with
          | some e2 => exact ⟨rfl, rfl⟩
          | none => exact createSaleRest_frame fail uid now cart pay due nsid ncid _
        | none =>
          dsimp only
          cases hsr : singleRow (s.customers.filter fun c => c.name = name) with
          | some c => exact createSaleRest_frame fail uid now cart pay due nsid c.id s
          | none =>
            cases hci : fail CallSite.custIns with
            | some e2 => exact ⟨rfl, rfl⟩
            | none => exact createSaleRest_frame fail uid now cart pay due nsid ncid _
    · exact ⟨rfl, rfl⟩

theorem restoreStep_sales (fail : FailOracle) (now : Int) (s : Store) (item : SaleItem) :
    (restoreStep fail now s item).sales = s.sales := by
  unfold restoreStep
  dsimp only
  repeat' split
  all_goals rfl

theorem restoreFold_sales (fail : FailOracle) (now : Int) :
    ∀ (items : List SaleItem) (s : Store),
      (items.foldl (restoreStep fail now) s).sales = s.sales := by
  intro items
  induction items with
  | nil => intro s; rfl
  | cons it rest ih =>
    intro s
    rw [List.foldl_cons, ih, restoreStep_sales]

/-- C6 counterexample: inject a store failure ("network error") into the
`sale_items` read of `deleteSale` on a concrete store; the operation still
completes with `.ok` — the error is silently swallowed rather than
surfaced — while the sale row is deleted and the stock restore is skipped. -/
theorem deleteSale_swallows_items_read_failure :
    (deleteSale (failAt .itemsSel "network error") 0 5 demoStore).2 = .ok () ∧
      (deleteSale (failAt .itemsSel "network error") 0 5 demoStore).1.products
        = demoStore.products ∧
      (deleteSale (failAt .itemsSel "network error") 0 5 demoStore).1.sales = [] := by
  refine ⟨rfl, rfl, rfl⟩

/-- C6 (amended): store-call failures whose results the code checks — the
debtor update and the sale update in `markAsPaid`, the sale insert in
`createSale`, the final delete in `deleteSale` — abort the remaining steps
and surface the store's error verbatim, with no retry; but the failures of
the unchecked calls — `deleteSale`'s sale-items read (and its product reads
and stock-restore updates), `markAsPaid`'s debtor re-read, `createSale`'s
existing-customer lookup — are silently swallowed and the operation
continues, so `deleteSale` can even report success while the stock restore
was skipped. -/
theorem checked_failures_abort_unchecked_swallowed :
    (∀ (e : String) (now : Int) (did : Nat) (s : Store),
      markAsPaid (failAt .debtorUpd e) now did s = (s, .error (.store e))) ∧
    (∀ (e : String) (now : Int) (did : Nat) (s : Store) (d0 : Debtor),
      singleRow (s.debtors.filter fun d => d.id = did) = some d0 →
      ∃ s1, markAsPaid (failAt .saleUpd e) now did s = (s1, .error (.store e)) ∧
        s1.sales = s.sales) ∧
    (∀ (e : String) (now : Int) (sid : Nat) (s : Store),
      ∃ s1, deleteSale (failAt .saleDel e) now sid s = (s1, .error (.store e)) ∧
        s1.sales = s.sales) ∧
    (∀ (e : String) (uid : Nat) (now : Int) (name : String)
        (email phone : Option String) (cart : List CartLine) (pay : PayStatus)
        (due : Option Int) (ncid nsid : Nat) (s : Store),
      ∃ s1, createSale (failAt .saleIns e) (some uid) now name email phone cart pay due
          ncid nsid s = (s1, .error (.store e)) ∧
        s1.sales = s.sales ∧ s1.sale_items = s.sale_items ∧
        s1.products = s.products ∧ s1.debtors = s.debtors) ∧
    (∀ (e : String) (now : Int) (sid : Nat) (s : Store),
      ∃ s1, deleteSale (failAt .itemsSel e) now sid s = (s1, .ok ()) ∧
        s1.products = s.products) := by
  refine ⟨?_, ?_, ?_, ?_, ?_⟩
  · intro e now did s
    rfl
  · intro e now did s d0 h
    refine ⟨{ s with debtors := s.debtors.map (resolveUpd now did) }, ?_, rfl⟩
    unfold markAsPaid
    rw [show failAt CallSite.saleUpd e CallSite.debtorUpd = none from rfl,
      show failAt CallSite.saleUpd e CallSite.debtorSel = none from rfl]
    dsimp only
    rw [filter_id_map_resolveUpd, singleRow_map, h]
    dsimp only [Option.map]
    rw [show failAt CallSite.saleUpd e CallSite.saleUpd = some e from rfl]
  · intro e now sid s
    refine ⟨(s.sale_items.filter fun it => it.sale_id = sid).foldl
        (restoreStep (failAt CallSite.saleDel e) now) s, ?_,
      restoreFold_sales (failAt CallSite.saleDel e) now _ s⟩
    unfold deleteSale
    rw [show failAt CallSite.saleDel e CallSite.itemsSel = none from rfl,
      show failAt CallSite.saleDel e CallSite.saleDel = some e from rfl]
  · intro e uid now name email phone cart pay due ncid nsid s
    unfold createSale
    dsimp only
    rw [show failAt CallSite.saleIns e CallSite.custSel = none from rfl]
    dsimp only
    cases hsr : singleRow (s.customers.filter fun c => c.name = name) with
    | some c =>
      refine ⟨s, ?_, rfl, rfl, rfl, rfl⟩
      unfold createSaleRest
      rw [show failAt CallSite.saleIns e CallSite.saleIns = some e from rfl]
    | none =>
      rw [show failAt CallSite.saleIns e CallSite.custIns = none from rfl]
      dsimp only
      refine ⟨{ s with customers := s.customers ++ [{ id := ncid, name := name, email := email, phone := phone }] }, ?_, rfl, rfl, rfl, rfl⟩
      unfold createSaleRest
      rw [show failAt CallSite.saleIns e CallSite.saleIns = some e from rfl]
  · intro e now sid s
    refine ⟨{ s with sales := s.sales.filter fun sa => sa.id ≠ sid }, ?_, rfl⟩
    unfold deleteSale
    rw [show failAt CallSite.itemsSel e CallSite.itemsSel = some e from rfl,
      show failAt CallSite.itemsSel e CallSite.saleDel = none from rfl]

/-- Witness for C6 (amended) at the demo store with error text "boom". -/
theorem checked_failures_abort_unchecked_swallowed_witness :
    markAsPaid (failAt .debtorUpd "boom") 0 9 demoStore
        = (demoStore, .error (.store "boom")) ∧
      (∃ s1, markAsPaid (failAt .saleUpd "boom") 0 9 demoStore
          = (s1, .error (.store "boom")) ∧ s1.sales = demoStore.sales) ∧
      (∃ s1, deleteSale (failAt .saleDel "boom") 0 5 demoStore
          = (s1, .error (.store "boom")) ∧ s1.sales = demoStore.sales) ∧
      (∃ s1, createSale (failAt .saleIns "boom") (some 7) 20 "Alice" none none
          [demoLine] PayStatus.paid none 11 12 demoStore
          = (s1, .error (.store "boom")) ∧
        s1.sales = demoStore.sales ∧ s1.sale_items = demoStore.sale_items ∧
        s1.products = demoStore.products ∧ s1.debtors = demoStore.debtors) ∧
      (∃ s1, deleteSale (failAt .itemsSel "boom") 0 5 demoStore = (s1, .ok ()) ∧
        s1.products = demoStore.products) :=
  ⟨checked_failures_abort_unchecked_swallowed.1 "boom" 0 9 demoStore,
    checked_failures_abort_unchecked_swallowed.2.1 "boom" 0 9 demoStore demoDebtor rfl,
    checked_failures_abort_unchecked_swallowed.2.2.1 "boom" 0 5 demoStore,
    checked_failures_abort_unchecked_swallowed.2.2.2.1 "boom" 7 20 "Alice" none none
      [demoLine] PayStatus.paid none 11 12 demoStore,
    checked_failures_abort_unchecked_swallowed.2.2.2.2 "boom" 0 5 demoStore⟩
